import Mathlib

/-!
Shallow embedding of the music-store assistant orchestration core.

The definitions below are translated from the Python source of the
repository: the dialog-stack reducer (`update_dialog_stack` in
app/agent/utils/state.py and src/langgraph/utils.py), the routers
(`route_customer_assistant`, `route_music`, `route_primary_assistant`,
`route_to_workflow` in src/graph.py and app/agent/agent.py), the entry
and leave nodes (`create_entry_node`, `pop_dialog_state` in
app/agent/utils/nodes.py), the assistant retry loop (`Assistant.__call__`),
the tool-invocation node with fallback (`create_tool_node_with_fallback`,
`handle_tool_error`), and the denial message built in the interrupt loop
of src/main.py.
-/

namespace MusicStore

/-- A tool call emitted by an assistant message: id, tool name and raw arguments. -/
structure ToolCall where
  id : String
  name : String
  args : String
deriving DecidableEq, Repr

/-- Message content as produced by the completion service: either a plain string
or a list of content blocks, each block possibly carrying a text field
(mirrors the string-or-list shape checked by the Python degeneracy test). -/
inductive Content where
  | text (s : String) : Content
  | blocks (bs : List (Option String)) : Content
deriving DecidableEq, Repr

/-- Conversation messages: the tagged Message variant of the data model.
Only assistant messages carry tool calls; a tool message carries the id of
the tool call it answers when one was supplied at construction. -/
inductive Msg where
  | user (content : String) : Msg
  | system (content : String) : Msg
  | assistant (content : Content) (tool_calls : List ToolCall) : Msg
  | tool (tool_call_id : Option String) (content : String) : Msg
deriving DecidableEq, Repr

/-- The graph state: messages, user_info, and the dialog-state stack
(State in app/agent/utils/state.py and src/langgraph/utils.py). -/
structure State where
  messages : List Msg
  user_info : String
  dialog_state : List String
deriving DecidableEq, Repr

/-- Tool calls of a message: assistant messages expose their tool_calls list,
every other message kind carries none. -/
def msgToolCalls : Msg → List ToolCall
  | Msg.assistant _ tcs => tcs
  | _ => []

/-- The tool-call id field of a message (none for non-tool messages). -/
def msgToolCallId : Msg → Option String
  | Msg.tool i _ => i
  | _ => none

/-- Tool calls of the latest message of the history ([] when the history is
empty). The routers all read state["messages"][-1].tool_calls. -/
def lastToolCalls (msgs : List Msg) : List ToolCall :=
  match msgs.getLast? with
  | none => []
  | some m => msgToolCalls m

/-- Translated from update_dialog_stack (app/agent/utils/state.py):
none leaves the stack unchanged, "pop" drops the last element
(left[:-1], which on an empty list is again the empty list), and any
other label is appended. -/
def update_dialog_stack (left : List String) (right : Option String) : List String :=
  match right with
  | none => left
  | some r => if r = "pop" then left.dropLast else left ++ [r]

/-- Translated from update_dialog_stack (src/langgraph/utils.py): identical
except for an explicit emptiness guard on the pop branch
(left[:-1] if left else left). -/
def update_dialog_stack_checked (left : List String) (right : Option String) : List String :=
  match right with
  | none => left
  | some r =>
    if r = "pop" then (if left.isEmpty then left else left.dropLast)
    else left ++ [r]

theorem update_dialog_stack_checked_eq (left : List String) (right : Option String) :
    update_dialog_stack_checked left right = update_dialog_stack left right := by
  cases right with
  | none => rfl
  | some r =>
    simp only [update_dialog_stack_checked, update_dialog_stack]
    split
    · cases left <;> simp
    · rfl

/-- Safe tool names of the customer assistant ([t.name for t in customer_safe_tools],
with customer_safe_tools = [get_customer_info]). -/
def customer_safe_toolnames : List String := ["get_customer_info"]

/-- Sensitive tool names of the customer assistant
(customer_sensitive_tools = [update_customer_profile]). -/
def customer_sensitive_toolnames : List String := ["update_customer_profile"]

/-- Tool names of the music assistant
(music_tools = [check_for_songs, get_tracks_by_artist, get_albums_by_artist]). -/
def music_toolnames : List String :=
  ["check_for_songs", "get_tracks_by_artist", "get_albums_by_artist"]

/-- Outcome of a conditional-edge router: END, a named node, or a raised error. -/
inductive Route where
  | stop : Route
  | node (target : String) : Route
  | err (message : String) : Route
deriving DecidableEq, Repr

/-- Translated from route_customer_assistant (src/graph.py, app/agent/agent.py):
tools_condition returns END when the latest message carries no tool calls;
any CompleteOrEscalate call routes to leave_skill; a batch whose names all
lie in the safe set routes to customer_safe_tools; every other batch routes
to customer_sensitive_tools. -/
def route_customer_assistant (st : State) : Route :=
  if lastToolCalls st.messages = [] then Route.stop
  else if ∃ tc ∈ lastToolCalls st.messages, tc.name = "CompleteOrEscalate" then
    Route.node "leave_skill"
  else if ∀ tc ∈ lastToolCalls st.messages, tc.name ∈ customer_safe_toolnames then
    Route.node "customer_safe_tools"
  else Route.node "customer_sensitive_tools"

/-- Translated from route_music (src/graph.py) / route_music_assistant
(app/agent/agent.py): END when no tool calls, leave_skill on any
CompleteOrEscalate call, and music_tools in both remaining branches
(the source returns "music_tools" whether or not all names are known). -/
def route_music (st : State) : Route :=
  if lastToolCalls st.messages = [] then Route.stop
  else if ∃ tc ∈ lastToolCalls st.messages, tc.name = "CompleteOrEscalate" then
    Route.node "leave_skill"
  else if ∀ tc ∈ lastToolCalls st.messages, tc.name ∈ music_toolnames then
    Route.node "music_tools"
  else Route.node "music_tools"

/-- Translated from route_primary_assistant (src/graph.py, app/agent/agent.py):
END when no tool calls; otherwise dispatch on the FIRST call name, with
delegation names entering the matching context and every other name sent to
primary_assistant_tools; the trailing raise ValueError is reached only when
the tool-call list is empty. -/
def route_primary_assistant (st : State) : Route :=
  if lastToolCalls st.messages = [] then Route.stop
  else
    match lastToolCalls st.messages with
    | [] => Route.err "Invalid route"
    | tc :: _ =>
      if tc.name = "ToCustomerAssistant" then Route.node "enter_customer_profile"
      else if tc.name = "ToMusicAssistant" then Route.node "enter_music"
      else Route.node "primary_assistant_tools"

/-- Translated from route_to_workflow (src/graph.py, app/agent/utils/nodes.py):
the entry router returns primary_assistant on a falsy dialog_state and the
last stack element otherwise; it reads nothing but dialog_state. -/
def route_to_workflow (st : State) : String :=
  (st.dialog_state.getLast?).getD "primary_assistant"

/-- Static (unconditional) edges of the compiled graph, from the add_edge
calls in src/graph.py build_graph. -/
def graph_edge : String → Option String
  | "enter_music" => some "music"
  | "enter_customer_profile" => some "customer_assistant"
  | "customer_sensitive_tools" => some "customer_assistant"
  | "customer_safe_tools" => some "customer_assistant"
  | "leave_skill" => some "primary_assistant"
  | "primary_assistant_tools" => some "primary_assistant"
  | _ => none

/-- The proxy instruction content built by create_entry_node
(app/agent/utils/nodes.py). -/
def entry_message_content (assistant_name : String) : String :=
  "The assistant is now the " ++ assistant_name ++
  ". Reflect on the above conversation between the host assistant and the user." ++
  " The user\x27s intent is unsatisfied. Use the provided tools to assist the user. Remember, you are " ++
  assistant_name ++
  "," ++
  " and any other action is not complete until after you have successfully invoked the appropriate tool." ++
  " If the user changes their mind or needs help for other tasks, call the CompleteOrEscalate function to let the primary host assistant take control." ++
  " Do not mention who you are - just act as the proxy for the assistant."

/-- Translated from create_entry_node (app/agent/utils/nodes.py): the entry
node reads state["messages"][-1].tool_calls[0]["id"] with no guard. The
embedding returns none exactly where the Python access is undefined (empty
history, or a latest message carrying no tool calls); otherwise it returns
the synthesized ToolMessage answering that id plus the pushed dialog state. -/
def create_entry_node (assistant_name new_dialog_state : String) (st : State) :
    Option (List Msg × String) :=
  match (lastToolCalls st.messages).head? with
  | none => none
  | some tc =>
    some ([Msg.tool (some tc.id) (entry_message_content assistant_name)], new_dialog_state)

/-- The resumption content built by pop_dialog_state (app/agent/utils/nodes.py). -/
def resume_message_content : String :=
  "Resuming dialog with the host assistant. Please reflect on the past conversation and assist the user as needed."

/-- Translated from pop_dialog_state (app/agent/utils/nodes.py): reads
state["messages"][-1] (none on an empty history, where the Python access is
undefined), emits the resumption ToolMessage when that message carries tool
calls, and always returns dialog_state = "pop". -/
def pop_dialog_state (st : State) : Option (String × List Msg) :=
  match st.messages.getLast? with
  | none => none
  | some m =>
    match (msgToolCalls m).head? with
    | none => some ("pop", [])
    | some tc => some ("pop", [Msg.tool (some tc.id) resume_message_content])

/-- One completion result, before being wrapped into a message. -/
structure AIResult where
  content : Content
  tool_calls : List ToolCall
deriving DecidableEq, Repr

/-- The degeneracy test of Assistant.__call__: no tool calls, and either falsy
content (empty string or empty block list) or a block list whose first block
has a falsy text field. -/
def degenerate (r : AIResult) : Bool :=
  r.tool_calls.isEmpty &&
    (match r.content with
     | Content.text s => s == ""
     | Content.blocks bs =>
       match bs.head? with
       | none => true
       | some none => true
       | some (some t) => t == "")

/-- The corrective retry step of Assistant.__call__: append the synthetic
user-role instruction to the message history. -/
def append_corrective (st : State) : State :=
  { st with messages := st.messages ++ [Msg.user "Respond with a real output."] }

/-- Translated from Assistant.__call__ (src/langgraph/utils.py,
app/agent/agent.py): the while-True loop, indexed by fuel so that
non-termination of the source loop appears as none for every fuel value.
Each iteration invokes the runnable once; a degenerate result triggers a
retry on the corrective-extended state; a non-degenerate result is returned. -/
def assistant_loop (runnable : State → AIResult) : Nat → State → Option AIResult
  | 0, _ => none
  | n + 1, st =>
    let result := runnable st
    if degenerate result then assistant_loop runnable n (append_corrective st)
    else some result

/-- Translated from handle_tool_error (app/agent/utils/nodes.py): one error
ToolMessage per tool call of the failing batch, in batch order, each carrying
the same formatted error description. (The Python formats the error with
repr; the embedding takes the already-formatted error text.) -/
def handle_tool_error (error : String) (tcs : List ToolCall) : List Msg :=
  tcs.map (fun tc =>
    Msg.tool (some tc.id) ("Error: " ++ error ++ "\nPlease fix your request."))

/-- Modelled from the spec: the library ToolNode wrapped by
create_tool_node_with_fallback is external code; per spec 4.2 it invokes the
Tool Provider once per call of the batch and yields one ToolResult per call in
input order, and a provider failure raises out of the node as a whole, which
is what hands control to the fallback. -/
def tool_node_raw (provider : ToolCall → Except String String) :
    List ToolCall → Except String (List Msg)
  | [] => Except.ok []
  | tc :: rest =>
    match provider tc with
    | Except.error e => Except.error e
    | Except.ok v =>
      match tool_node_raw provider rest with
      | Except.error e => Except.error e
      | Except.ok ms => Except.ok (Msg.tool (some tc.id) v :: ms)

/-- Translated from create_tool_node_with_fallback (app/agent/agent.py):
ToolNode(tools).with_fallbacks([RunnableLambda(handle_tool_error)]) — run the
tool node, and on an error run handle_tool_error on the same batch. -/
def create_tool_node_with_fallback (provider : ToolCall → Except String String)
    (tcs : List ToolCall) : List Msg :=
  match tool_node_raw provider tcs with
  | Except.ok ms => ms
  | Except.error e => handle_tool_error e tcs

/-- Translated from the interrupt loop of src/main.py: the denial message built
when the user does not approve a sensitive action. The source constructs
ToolMessage(content=...) supplying no tool_call_id. -/
def denial_message (reason : String) : Msg :=
  Msg.tool none ("Action denied by user. Reason: \x27" ++ reason ++ "\x27. Please adapt.")

/-- C5: one Enter (push of a context label, never the pop sentinel) increases
the dialog-stack length by exactly 1; one Leave (pop) decreases the length by
exactly 1 on a non-empty stack, and on an empty stack leaves it unchanged
(length change 0, no error). -/
theorem c5_stack_length_deltas :
    (∀ (s : List String) (x : String), x ≠ "pop" →
      (update_dialog_stack s (some x)).length = s.length + 1) ∧
    (∀ s : List String, s ≠ [] →
      (update_dialog_stack s (some "pop")).length = s.length - 1) ∧
    update_dialog_stack ([] : List String) (some "pop") = [] := by
  refine ⟨?_, ?_, rfl⟩
  · intro s x hx
    simp [update_dialog_stack, hx]
  · intro s _
    simp [update_dialog_stack]

theorem c5_stack_length_deltas_witness :
    (update_dialog_stack ["assistant"] (some "music")).length = 2 ∧
    (update_dialog_stack ["assistant", "music"] (some "pop")).length = 1 :=
  ⟨c5_stack_length_deltas.1 ["assistant"] "music" (by decide),
   c5_stack_length_deltas.2.1 ["assistant", "music"] (by decide)⟩

/-- C10: for every stack s and context label x that is neither none nor the
pop sentinel, pushing x and then applying pop returns exactly s, and applying
the reducer with none returns s unchanged. -/
theorem c10_push_then_pop_is_identity :
    (∀ (s : List String) (x : String), x ≠ "pop" →
      update_dialog_stack (update_dialog_stack s (some x)) (some "pop") = s) ∧
    (∀ s : List String, update_dialog_stack s none = s) := by
  refine ⟨?_, fun s => rfl⟩
  intro s x hx
  simp [update_dialog_stack, hx]

theorem c10_push_then_pop_is_identity_witness :
    update_dialog_stack (update_dialog_stack ["assistant"] (some "music")) (some "pop") =
      ["assistant"] :=
  c10_push_then_pop_is_identity.1 ["assistant"] "music" (by decide)

/-- C6: the entry router returns primary_assistant on every state with an
empty dialog stack regardless of message history, returns the node named by
the top (last element) of a non-empty stack, and depends on nothing but the
stack — two states with equal stacks route identically, so it consults
neither the model nor the messages. -/
theorem c6_entry_router_from_stack_top (st : State) :
    (st.dialog_state = [] → route_to_workflow st = "primary_assistant") ∧
    (∀ h : st.dialog_state ≠ [], route_to_workflow st = st.dialog_state.getLast h) ∧
    (∀ st' : State, st.dialog_state = st'.dialog_state →
      route_to_workflow st = route_to_workflow st') := by
  refine ⟨?_, ?_, ?_⟩
  · intro h
    simp [route_to_workflow, h]
  · intro h
    simp [route_to_workflow, List.getLast?_eq_getLast_of_ne_nil h]
  · intro st' h
    simp [route_to_workflow, h]

theorem c6_entry_router_from_stack_top_witness :
    route_to_workflow
        { messages := [Msg.user "hello"], user_info := "", dialog_state := [] } =
      "primary_assistant" ∧
    route_to_workflow
        { messages := [], user_info := "", dialog_state := ["assistant", "music"] } =
      "music" := by
  constructor
  · exact (c6_entry_router_from_stack_top _).1 rfl
  · simpa using
      (c6_entry_router_from_stack_top
        { messages := [], user_info := "", dialog_state := ["assistant", "music"] }).2.1
        (by decide)

/-- C8: code bug — the denial message synthesized in the source interrupt loop
on a rejected approval carries the reason in its content but supplies no
tool_call_id at all, so it never references the pending sensitive tool call;
evaluated at the Scenario B reason "wrong address". -/
theorem c8_denial_message_has_no_tool_call_id :
    (∀ reason : String, msgToolCallId (denial_message reason) = none) ∧
    denial_message "wrong address" =
      Msg.tool none "Action denied by user. Reason: \x27wrong address\x27. Please adapt." :=
  ⟨fun _ => rfl, rfl⟩

/-- C1: in the CustomerProfile router, for a non-empty tool-call batch without
an Escalation call, the presence of any sensitive (mutating) tool name routes
the whole batch to customer_sensitive_tools even when other calls are safe,
and the batch routes to customer_safe_tools only when every call names a
safe tool. -/
theorem c1_sensitive_calls_never_demoted (st : State)
    (hne : lastToolCalls st.messages ≠ [])
    (hnoesc : ∀ tc ∈ lastToolCalls st.messages, tc.name ≠ "CompleteOrEscalate") :
    ((∃ tc ∈ lastToolCalls st.messages, tc.name ∈ customer_sensitive_toolnames) →
      route_customer_assistant st = Route.node "customer_sensitive_tools") ∧
    (route_customer_assistant st = Route.node "customer_safe_tools" →
      ∀ tc ∈ lastToolCalls st.messages, tc.name ∈ customer_safe_toolnames) := by
  have hesc : ¬ ∃ tc ∈ lastToolCalls st.messages, tc.name = "CompleteOrEscalate" := by
    rintro ⟨tc, htc, hname⟩
    exact hnoesc tc htc hname
  constructor
  · rintro ⟨tc, htc, hsens⟩
    have hnotall : ¬ ∀ t ∈ lastToolCalls st.messages, t.name ∈ customer_safe_toolnames := by
      intro hall
      have h1 := hall tc htc
      simp [customer_safe_toolnames] at h1
      simp [customer_sensitive_toolnames] at hsens
      rw [hsens] at h1
      exact absurd h1 (by decide)
    simp [route_customer_assistant, hne, hesc, hnotall]
  · intro hroute
    by_cases hall : ∀ t ∈ lastToolCalls st.messages, t.name ∈ customer_safe_toolnames
    · exact hall
    · exfalso
      have hsens : route_customer_assistant st = Route.node "customer_sensitive_tools" := by
        simp [route_customer_assistant, hne, hesc, hall]
      rw [hsens] at hroute
      injection hroute with h
      exact absurd h (by decide)

theorem c1_sensitive_calls_never_demoted_witness :
    route_customer_assistant
        { messages := [Msg.assistant (Content.text "")
            [ToolCall.mk "a" "get_customer_info" "", ToolCall.mk "b" "update_customer_profile" ""]],
          user_info := "", dialog_state := ["customer_assistant"] } =
      Route.node "customer_sensitive_tools" :=
  (c1_sensitive_calls_never_demoted _ (by decide) (by decide)).1
    ⟨ToolCall.mk "b" "update_customer_profile" "", by decide, by decide⟩

/-- C3: counterexample — a batch whose sole call names "bogus_tool", a name
that is neither the Escalation tool, nor a delegation tool, nor in any
context tool set, is routed silently: the music router returns music_tools,
the primary router returns primary_assistant_tools, and the customer router
returns customer_sensitive_tools; none of them raises an error. -/
theorem c3_counterexample :
    route_music
        { messages := [Msg.assistant (Content.text "") [ToolCall.mk "t1" "bogus_tool" ""]],
          user_info := "", dialog_state := ["music"] } = Route.node "music_tools" ∧
    route_primary_assistant
        { messages := [Msg.assistant (Content.text "") [ToolCall.mk "t1" "bogus_tool" ""]],
          user_info := "", dialog_state := [] } = Route.node "primary_assistant_tools" ∧
    route_customer_assistant
        { messages := [Msg.assistant (Content.text "") [ToolCall.mk "t1" "bogus_tool" ""]],
          user_info := "", dialog_state := ["customer_assistant"] } =
      Route.node "customer_sensitive_tools" := by
  refine ⟨?_, ?_, ?_⟩ <;> decide

/-- C3 amended: the routers never raise for an unrecognized tool name — every
router returns END or a node on every state (the ValueError branch of the
primary router is unreachable), and a non-empty batch without an Escalation
call is routed silently to the music tool path by the music router even when
its names are unknown. -/
theorem c3_unrecognized_names_routed_silently (st : State) :
    (∀ e, route_music st ≠ Route.err e) ∧
    (∀ e, route_customer_assistant st ≠ Route.err e) ∧
    (∀ e, route_primary_assistant st ≠ Route.err e) ∧
    (lastToolCalls st.messages ≠ [] →
      (∀ tc ∈ lastToolCalls st.messages, tc.name ≠ "CompleteOrEscalate") →
      route_music st = Route.node "music_tools") := by
  refine ⟨?_, ?_, ?_, ?_⟩
  · intro e
    unfold route_music
    split
    · simp
    · split
      · simp
      · split <;> simp
  · intro e
    unfold route_customer_assistant
    split
    · simp
    · split
      · simp
      · split <;> simp
  · intro e
    cases h : lastToolCalls st.messages with
    | nil => simp [route_primary_assistant, h]
    | cons tc rest =>
      simp only [route_primary_assistant, h]
      split
      · simp
      · split
        · simp
        · split <;> simp
  · intro hne hnoesc
    have hesc : ¬ ∃ tc ∈ lastToolCalls st.messages, tc.name = "CompleteOrEscalate" := by
      rintro ⟨tc, htc, hname⟩
      exact hnoesc tc htc hname
    by_cases hall : ∀ tc ∈ lastToolCalls st.messages, tc.name ∈ music_toolnames
    · simp [route_music, hne, hesc, hall]
    · simp [route_music, hne, hesc, hall]

theorem c3_unrecognized_names_routed_silently_witness :
    route_music
        { messages := [Msg.assistant (Content.text "") [ToolCall.mk "t2" "mystery_tool" ""]],
          user_info := "", dialog_state := ["music"] } = Route.node "music_tools" :=
  (c3_unrecognized_names_routed_silently _).2.2.2 (by decide) (by decide)

/-- C7: from the music context, a latest assistant message whose first tool
call names the Escalation tool CompleteOrEscalate routes to leave_skill;
pop_dialog_state then yields the pop sentinel, whose reducer application
drops the top of the dialog stack, and the static graph edge sends
leave_skill to the primary assistant node. -/
theorem c7_escalation_pops_to_primary (st : State) (tc : ToolCall) (rest : List ToolCall)
    (hcalls : lastToolCalls st.messages = tc :: rest)
    (hname : tc.name = "CompleteOrEscalate") :
    route_music st = Route.node "leave_skill" ∧
    (∃ msgs, pop_dialog_state st = some ("pop", msgs)) ∧
    update_dialog_stack st.dialog_state (some "pop") = st.dialog_state.dropLast ∧
    graph_edge "leave_skill" = some "primary_assistant" := by
  refine ⟨?_, ?_, by simp [update_dialog_stack], rfl⟩
  · have hesc : ∃ t ∈ tc :: rest, t.name = "CompleteOrEscalate" :=
      ⟨tc, List.mem_cons_self _ _, hname⟩
    simp only [route_music, hcalls]
    rw [if_neg (by simp), if_pos hesc]
  · unfold pop_dialog_state
    cases hm : st.messages.getLast? with
    | none =>
      exfalso
      simp [lastToolCalls, hm] at hcalls
    | some m =>
      cases h2 : (msgToolCalls m).head? with
      | none => exact ⟨[], by simp [h2]⟩
      | some t => exact ⟨[Msg.tool (some t.id) resume_message_content], by simp [h2]⟩

theorem c7_escalation_pops_to_primary_witness :
    route_music
        { messages := [Msg.assistant (Content.text "") [ToolCall.mk "t9" "CompleteOrEscalate" ""]],
          user_info := "", dialog_state := ["music"] } = Route.node "leave_skill" ∧
    (∃ msgs, pop_dialog_state
        { messages := [Msg.assistant (Content.text "") [ToolCall.mk "t9" "CompleteOrEscalate" ""]],
          user_info := "", dialog_state := ["music"] } = some ("pop", msgs)) ∧
    update_dialog_stack ["music"] (some "pop") = (["music"] : List String).dropLast ∧
    graph_edge "leave_skill" = some "primary_assistant" :=
  c7_escalation_pops_to_primary _ (ToolCall.mk "t9" "CompleteOrEscalate" "") [] rfl rfl

/-- C2: code bug — the claim (with spec 4.1) requires a bounded number of
retry attempts followed by a terminal apology message, but the source
while-True loop, run against a completion that returns a degenerate result on
every attempt, produces no output for any number of iterations: it retries
unboundedly, each retry re-invoking the runnable on the state extended with
the corrective user message "Respond with a real output.", and no apology
message exists anywhere in the loop. -/
theorem c2_degenerate_results_loop_forever (runnable : State → AIResult)
    (hdeg : ∀ st, degenerate (runnable st) = true) :
    (∀ (fuel : Nat) (st : State), assistant_loop runnable fuel st = none) ∧
    (∀ (n : Nat) (st : State),
      assistant_loop runnable (n + 1) st =
        assistant_loop runnable n (append_corrective st)) := by
  constructor
  · intro fuel
    induction fuel with
    | zero => intro st; rfl
    | succ n ih =>
      intro st
      simp [assistant_loop, hdeg st, ih]
  · intro n st
    simp [assistant_loop, hdeg st]

theorem c2_degenerate_results_loop_forever_witness :
    assistant_loop (fun _ => AIResult.mk (Content.text "") []) 5
      (State.mk [] "" []) = none :=
  (c2_degenerate_results_loop_forever (fun _ => AIResult.mk (Content.text "") [])
    (fun _ => rfl)).1 5 (State.mk [] "" [])

/-- C4: counterexample — under a provider for which get_customer_info
succeeds with "profile data" and update_customer_profile fails with "boom",
the batch of both calls yields the same error ToolResult for BOTH calls
(the fallback replaces the successful sibling result too), while the same
get_customer_info call alone yields its successful result: a failing call
changes the result of its sibling. -/
theorem c4_counterexample :
    create_tool_node_with_fallback
        (fun tc => if tc.name = "update_customer_profile" then Except.error "boom"
                   else Except.ok "profile data")
        [ToolCall.mk "1" "get_customer_info" "", ToolCall.mk "2" "update_customer_profile" ""] =
      [Msg.tool (some "1") "Error: boom\nPlease fix your request.",
       Msg.tool (some "2") "Error: boom\nPlease fix your request."] ∧
    create_tool_node_with_fallback
        (fun tc => if tc.name = "update_customer_profile" then Except.error "boom"
                   else Except.ok "profile data")
        [ToolCall.mk "1" "get_customer_info" ""] =
      [Msg.tool (some "1") "profile data"] := by
  constructor <;> rfl

theorem tool_node_raw_ok_ids (provider : ToolCall → Except String String) :
    ∀ (tcs : List ToolCall) (ms : List Msg),
      tool_node_raw provider tcs = Except.ok ms →
      ms.map msgToolCallId = tcs.map (fun tc => some tc.id) := by
  intro tcs
  induction tcs with
  | nil =>
    intro ms h
    simp only [tool_node_raw] at h
    cases h
    rfl
  | cons tc rest ih =>
    intro ms h
    simp only [tool_node_raw] at h
    cases hp : provider tc with
    | error e => rw [hp] at h; cases h
    | ok v =>
      rw [hp] at h
      cases hr : tool_node_raw provider rest with
      | error e => rw [hr] at h; cases h
      | ok ms' =>
        rw [hr] at h
        cases h
        simp [msgToolCallId, ih ms' hr]

/-- C4 amended: the tool-invocation node always returns exactly one
ToolResult per input ToolCall, in input order and answering the matching
call id — on the success path via the per-call provider results, and on the
failure path via handle_tool_error, which replaces every result of the batch
(siblings included) with the same error description. -/
theorem c4_one_result_per_call_in_order (provider : ToolCall → Except String String)
    (tcs : List ToolCall) :
    (create_tool_node_with_fallback provider tcs).map msgToolCallId =
      tcs.map (fun tc => some tc.id) := by
  unfold create_tool_node_with_fallback
  cases h : tool_node_raw provider tcs with
  | ok ms => exact tool_node_raw_ok_ids provider tcs ms h
  | error e => simp [handle_tool_error, msgToolCallId]

/-- C9: the entry node reads the first tool call of the latest message with
no guard: when the latest message carries at least one tool call it returns
the ToolResult answering that call id together with the pushed dialog state,
and on an empty message list, or a latest message carrying no tool calls,
its result is undefined (embedded as none — the unguarded index is
reachable). -/
theorem c9_entry_node_requires_tool_call (st : State) (a n : String) :
    (∀ (tc : ToolCall) (rest : List ToolCall),
      lastToolCalls st.messages = tc :: rest →
      create_entry_node a n st =
        some ([Msg.tool (some tc.id) (entry_message_content a)], n)) ∧
    (st.messages = [] → create_entry_node a n st = none) ∧
    (lastToolCalls st.messages = [] → create_entry_node a n st = none) := by
  refine ⟨?_, ?_, ?_⟩
  · intro tc rest h
    simp [create_entry_node, h]
  · intro h
    simp [create_entry_node, lastToolCalls, h]
  · intro h
    simp [create_entry_node, h]

theorem c9_entry_node_requires_tool_call_witness :
    create_entry_node "Customer Assistant" "customer_assistant"
        { messages := [Msg.assistant (Content.text "") [ToolCall.mk "t1" "ToCustomerAssistant" ""]],
          user_info := "", dialog_state := [] } =
      some ([Msg.tool (some "t1") (entry_message_content "Customer Assistant")],
        "customer_assistant") ∧
    create_entry_node "Customer Assistant" "customer_assistant"
        { messages := [], user_info := "", dialog_state := [] } = none :=
  ⟨(c9_entry_node_requires_tool_call
      { messages := [Msg.assistant (Content.text "") [ToolCall.mk "t1" "ToCustomerAssistant" ""]],
        user_info := "", dialog_state := [] } "Customer Assistant" "customer_assistant").1
      (ToolCall.mk "t1" "ToCustomerAssistant" "") [] rfl,
   (c9_entry_node_requires_tool_call
      { messages := [], user_info := "", dialog_state := [] }
      "Customer Assistant" "customer_assistant").2.1 rfl⟩

end MusicStore
